import Mathlib

/-
Verification of the packet routing and encryption junction (src/dht/Ducttape.c).

The embedding translates each dispatcher function of Ducttape.c into a pure
Lean function.  Packets are modelled as structured messages: a byte window is a
list of byte values (Nat) together with the C message length (Int, since the C
length field is a signed int), and the headers the code casts pointers to are
carried as structured views.  Multi-byte header fields are stored as their
numeric values; the byte order of the wire representation is absorbed by the
read/write helpers, so the Endian conversion functions are the identity on
these abstract values.  Side calls into the collaborators (DHT registry, DHT
router, TUN, the cryptographic sessions) are recorded as effects or as the
outcome of the call, since the collaborators themselves are external to this
module.
-/

namespace Ducttape

/-- Byte strings are lists of byte values. -/
abbrev Bytes := List Nat

/-- Endian conversion, host to big endian, 16 bit.  The embedding stores
multi-byte fields as abstract numeric values, so the conversion is the
identity; byte order only appears in the read/write helpers below. -/
def Endian_hostToBigEndian16 (x : Nat) : Nat := x

/-- Endian conversion, big endian to host, 16 bit (identity, see above). -/
def Endian_bigEndianToHost16 (x : Nat) : Nat := x

/-- Read a big-endian 16 bit value from a byte list at offset i. -/
def read16be (b : Bytes) (i : Nat) : Nat :=
  b.getD i 0 * 256 + b.getD (i + 1) 0

/-- Read a big-endian 32 bit value from a byte list at offset i. -/
def read32be (b : Bytes) (i : Nat) : Nat :=
  b.getD i 0 * 16777216 + b.getD (i + 1) 0 * 65536 + b.getD (i + 2) 0 * 256 + b.getD (i + 3) 0

/-- Write a 16 bit value as two big-endian bytes. -/
def write16be (x : Nat) : Bytes := [x / 256 % 256, x % 256]

/-- Write a 32 bit value as four big-endian bytes. -/
def write32be (x : Nat) : Bytes :=
  [x / 16777216 % 256, x / 65536 % 256, x / 256 % 256, x % 256]

/-- Size of a UDP header in bytes (wire/Headers.h). -/
def Headers_UDPHeader_SIZE : Nat := 8

/-- Size of an IPv6 header in bytes (wire/Headers.h; the spec fixes it at 40). -/
def Headers_IP6Header_SIZE : Nat := 40

/-- Modelled from the spec: size of the fabric switch header (wire/Headers.h is
not in src; the header carries a 64 bit label plus flag bits).  Only used for
length bookkeeping; no claim depends on the exact value. -/
def Headers_SwitchHeader_SIZE : Nat := 12

/-- Modelled from the spec: error taxonomy of wire/Error.h (not in src).
Error_NONE is 0: the code uses a literal return 0 and return Error_NONE
interchangeably.  INVALID and UNDELIVERABLE are distinct nonzero codes per the
taxonomy of spec section 7. -/
def Error_NONE : Nat := 0

/-- Modelled from the spec: the MALFORMED_ADDRESS error type (wire/Error.h). -/
def Error_MALFORMED_ADDRESS : Nat := 1

/-- Modelled from the spec: the INVALID error code (wire/Error.h). -/
def Error_INVALID : Nat := 7

/-- Modelled from the spec: the UNDELIVERABLE error code (wire/Error.h). -/
def Error_UNDELIVERABLE : Nat := 8

/-- Modelled from the spec: the switch-header message type tag for control
frames (wire/MessageType.h is not in src). -/
def MessageType_CONTROL : Nat := 1

/-- Modelled from the spec: the control-frame type tag for error frames
(wire/Control.h is not in src). -/
def Control_ERROR_be : Nat := 2

/-- The IPv6 header fields Ducttape.c reads and writes (wire/Headers.h).
Addresses are 16-byte strings; payloadLength_be holds the numeric value of the
16 bit payload length field. -/
structure Headers_IP6Header where
  nextHeader : Nat
  hopLimit : Nat
  payloadLength_be : Nat
  sourceAddr : Bytes
  destinationAddr : Bytes
deriving DecidableEq, Repr

/-- The UDP header view: sourceAndDestPorts is the combined 32 bit field the
code compares against zero (wire/Headers.h). -/
structure Headers_UDPHeader where
  sourceAndDestPorts : Nat
  length_be : Nat
  checksum_be : Nat
deriving DecidableEq, Repr

/-- The fabric switch header: the 64 bit label and the message type that
Headers_getMessageType extracts (modelled from the spec: the header carries
label plus misc flag bits, and the implementation reads getMessageType to
distinguish data from control frames). -/
structure Headers_SwitchHeader where
  label_be : Nat
  messageType : Nat
deriving DecidableEq, Repr

/-- Reads the message type of a switch header (wire/Headers.h getter, modelled
from the spec). -/
def Headers_getMessageType (h : Headers_SwitchHeader) : Nat := h.messageType

/-- Modelled from the spec: the control frame view (wire/Control.h is not in
src).  Carries the frame type, and for error frames the error type and the
cause label (the label_be of the packet which caused the error). -/
structure Control where
  type_be : Nat
  errorType_be : Nat
  causeLabel_be : Nat
deriving DecidableEq, Repr

/-- A node address (dht/Address.h is not in src; the fields are those the code
uses): the 32 byte public key, the 16 byte ip6 derived from it, and the 64 bit
fabric label (networkAddress_be). -/
structure Address where
  key : Bytes
  ip6 : Bytes
  networkAddress_be : Nat
deriving DecidableEq, Repr

/-- A message window with no header view: the byte window and the C length
field (a signed int in the source). -/
structure RawMsg where
  bytes : Bytes
  length : Int
deriving DecidableEq, Repr

/-- A message aligned on the beginning of an IPv6 header: the header view,
the bytes after the 40 byte header, and the total window length. -/
structure IP6Message where
  ip6 : Headers_IP6Header
  body : Bytes
  length : Int
deriving DecidableEq, Repr

/-- A frame as delivered by the fabric: the switch header, the body after the
switch header (the window after Message_shift by -Headers_SwitchHeader_SIZE),
the cast of that body as a control frame, and the total frame length. -/
structure SwitchMsg where
  header : Headers_SwitchHeader
  body : Bytes
  ctrl : Control
  length : Int
deriving DecidableEq, Repr

/-- An outbound DHT message as handed over by the registry (struct DHTMessage):
payload bytes, their length, and the target address. -/
structure DHTMessage where
  bytes : Bytes
  length : Nat
  address : Address
deriving DecidableEq, Repr

/-- The observable shape of a frame handed to the outer cryptographic session
by sendToRouter: the session encrypts contents and the frame is then emitted
to the fabric through sendToSwitchFromCryptoAuth/sendToSwitch with exactly the
switch header recorded here (the session does not touch the switch header). -/
structure OuterFrame where
  header : Headers_SwitchHeader
  key : Bytes
  contents : IP6Message
deriving DecidableEq, Repr

/-- The per-packet shared state of struct Context that Ducttape.c reads and
writes (the external collaborator handles are not state of this module).
contentSessionKey models CryptoAuth_getHerPublicKey(context->contentSession),
the peer key of the current content session; routerIf records whether a TUN
interface is configured. -/
structure Context where
  myAddr : Address
  ip6Header : Option Headers_IP6Header
  switchHeader : Option Headers_SwitchHeader
  forwardTo : Option Address
  herPublicKey : Bytes
  contentSessionKey : Bytes
  messageFromCryptoAuth : Option IP6Message
  routerIf : Bool
deriving DecidableEq, Repr

/-- Side calls into the external collaborators, recorded in order. -/
inductive Effect where
  /-- DHTModules_handleIncoming: the copied bytes and the source address. -/
  | dhtHandoff (bytes : Bytes) (addr : Address)
  /-- routerIf->sendMessage: a packet delivered to the TUN device. -/
  | tunSend (m : IP6Message)
  /-- RouterModule_addNode: a peer announced to the DHT router. -/
  | addNode (a : Address)
  /-- RouterModule_brokenPath: a label reported broken to the DHT router. -/
  | brokenPath (label : Nat)
  /-- The body of a data frame handed to the outer session for decryption
  (iface->receiveMessage in incomingFromSwitch); the session calls back into
  receivedFromCryptoAuth. -/
  | outerSessionReceive (m : RawMsg)
deriving DecidableEq, Repr

/-- The result of a dispatcher function: either a plain error code returned to
the caller, or a handoff whose return value is propagated. -/
inductive Outcome where
  /-- The function returns this error code. -/
  | code (e : Nat)
  /-- decryptedIncoming for-us branch: the window after the IPv6 header is
  handed to the content session for decryption (comes out at incomingForMe). -/
  | toContentSessionRecv (m : RawMsg)
  /-- A plaintext handed to the content session for encryption (comes out at
  outgoingFromMe). -/
  | toContentSessionSend (m : RawMsg)
  /-- sendToRouter: the message is handed to the outer session bound to the
  target key and then emitted to the fabric under frame.header. -/
  | toOuterSession (f : OuterFrame)
deriving DecidableEq, Repr

/-- The result of receivedFromCryptoAuth: the assert on a zero peer key aborts
the process, every other path returns. -/
inductive RcaResult where
  | assertFail
  | ok (ctx : Context) (out : Outcome) (effects : List Effect)
deriving DecidableEq, Repr

/-- Bits_isZero (util/Bits.h, not in src): true iff every byte is zero. -/
def Bits_isZero (b : Bytes) : Bool := b.all (fun x => x == 0)

/-- Modelled from the spec: Bits_bitReverse64 (util/Bits.h is not in src).
Fabric labels are 64 bit; the fabric delivers packets with the label
bit-reversed and this reverses the 64 bits of the label. -/
def Bits_bitReverse64 (x : Nat) : Nat :=
  (List.range 64).foldl (fun acc i => acc * 2 + x / 2 ^ i % 2) 0

/-- Modelled from the spec: Address_getPrefix (dht/Address.c is not in src)
computes the canonical ip6 of an address from its public key (derive_ip6 of
spec section 4.6, a hash-prefix construction).  The derivation function itself
is kept abstract: every theorem below holds for an arbitrary derivation
function, passed here as the argument derive. -/
def Address_getPrefix (derive : Bytes → Bytes) (a : Address) : Address :=
  { a with ip6 := derive a.key }

/-- The cast of a byte window to struct Headers_UDPHeader (lines 131, 176). -/
def udpHeaderOf (b : Bytes) : Headers_UDPHeader :=
  { sourceAndDestPorts := read32be b 0
    length_be := read16be b 4
    checksum_be := read16be b 6 }

/-- Placeholder IPv6 header used to read the per-packet ip6Header slot before
it was ever set; the dispatcher always sets it before the callbacks that read
it run (spec section 3, PerPacketState), so theorems pin the slot explicitly. -/
def defaultIP6 : Headers_IP6Header :=
  { nextHeader := 0, hopLimit := 0, payloadLength_be := 0
    sourceAddr := [], destinationAddr := [] }

/-- Placeholder switch header for the same purpose as defaultIP6. -/
def defaultSwitchHeader : Headers_SwitchHeader := { label_be := 0, messageType := 0 }

/-- incomingDHT (lines 99-120): copy at most MAX_MESSAGE_SIZE bytes of the
message into a fresh DHTMessage for addr and hand it to the registry via
DHTModules_handleIncoming; always returns Error_NONE.  MAX is the
MAX_MESSAGE_SIZE constant of dht/DHTModules.h (not in src), threaded as a
parameter.  A negative message length is undefined behaviour in the C (the
ternary would produce a huge unsigned copy size); the embedding clamps it to
zero and the truncation theorem assumes a non-negative length. -/
def incomingDHT (MAX : Nat) (message : RawMsg) (addr : Address) : Outcome × List Effect :=
  let length : Int := if message.length < (MAX : Int) then message.length else (MAX : Int)
  (Outcome.code Error_NONE, [Effect.dhtHandoff (message.bytes.take length.toNat) addr])

/-- isRouterTraffic (lines 170-179): a content-aligned message is
router-to-router DHT traffic iff the IPv6 header says UDP with hop limit zero
and the leading UDP header cast has zero ports and a length field equal to the
window length minus the UDP header size. -/
def isRouterTraffic (message : RawMsg) (ip6 : Headers_IP6Header) : Bool :=
  if ip6.nextHeader != 17 || ip6.hopLimit != 0 then false
  else
    let uh := udpHeaderOf message.bytes
    uh.sourceAndDestPorts == 0
      && ((Endian_bigEndianToHost16 uh.length_be : Int)
            == message.length - (Headers_UDPHeader_SIZE : Int))

/-- incomingForMe (lines 185-233): for a content-aligned message arriving
through the content session, rebuild the peer address from the session key,
drop with Error_INVALID if the stashed IPv6 source address differs from the
derived address, hand router traffic to the DHT registry with the UDP header
stripped, and otherwise deliver to the TUN device when one is configured.
sizeDiff is the distance between the stashed IPv6 header and the content
window in the underlying buffer minus the IPv6 header size (the inner crypto
overhead); the C computes it by pointer arithmetic (line 221), which the
embedding does not model, so it is an argument. -/
def incomingForMe (derive : Bytes → Bytes) (MAX : Nat) (sizeDiff : Nat)
    (ctx : Context) (message : RawMsg) : Outcome × List Effect :=
  let ip6 := ctx.ip6Header.getD defaultIP6
  let sw := ctx.switchHeader.getD defaultSwitchHeader
  let addr := Address_getPrefix derive
    { key := ctx.contentSessionKey, ip6 := List.replicate 16 0, networkAddress_be := 0 }
  let addr := { addr with networkAddress_be := sw.label_be }
  if addr.ip6 ≠ ip6.sourceAddr then
    (Outcome.code Error_INVALID, [])
  else if isRouterTraffic message ip6 then
    -- Shift off the UDP header.
    incomingDHT MAX
      { bytes := message.bytes.drop Headers_UDPHeader_SIZE
        length := message.length - (Headers_UDPHeader_SIZE : Int) } addr
  else if ctx.routerIf then
    -- Shift the window back over the IPv6 header, shrink the stashed payload
    -- length by the crypto overhead that was eaten, and write to the TUN.
    let newPl := (((Endian_bigEndianToHost16 ip6.payloadLength_be : Int) - sizeDiff).emod 65536).toNat
    (Outcome.code Error_NONE,
     [Effect.tunSend
        { ip6 := { ip6 with payloadLength_be := Endian_hostToBigEndian16 newPl }
          body := message.bytes
          length := message.length + (Headers_IP6Header_SIZE : Int) }])
  else
    (Outcome.code Error_UNDELIVERABLE, [])

/-- sendToRouter (lines 321-338): copy the current switch header (or a zeroed
one when none is stashed), overwrite its label with the destination's network
address, stash it back, and hand the message to the outer session for sendTo's
key; the encrypted frame is then emitted to the fabric under that header via
sendToSwitchFromCryptoAuth/sendToSwitch (lines 239-262). -/
def sendToRouter (sendTo : Address) (message : IP6Message) (ctx : Context) :
    Context × OuterFrame :=
  let header := match ctx.switchHeader with
    | some sh => sh
    | none => defaultSwitchHeader
  let header := { header with label_be := sendTo.networkAddress_be }
  let ctx := { ctx with switchHeader := some header }
  (ctx, { header := header, key := sendTo.key, contents := message })

/-- validIP6 (lines 340-347): source and destination addresses begin with 0xFC
and the payload length field equals the window length minus the IPv6 header
size. -/
def validIP6 (message : IP6Message) : Bool :=
  let length := Endian_bigEndianToHost16 message.ip6.payloadLength_be
  message.ip6.sourceAddr.getD 0 0 == 0xFC
    && message.ip6.destinationAddr.getD 0 0 == 0xFC
    && ((length : Int) == message.length - (Headers_IP6Header_SIZE : Int))

/-- isForMe (lines 349-353): the destination address equals our own ip6. -/
def isForMe (message : IP6Message) (ctx : Context) : Bool :=
  message.ip6.destinationAddr == ctx.myAddr.ip6

/-- ip6FromTun (lines 356-385): validate a host-injected IPv6 packet, require
our own address as source, stash the IPv6 header and a zeroed switch header,
strip the IPv6 header and hand the payload to the content session for
encryption (comes out at outgoingFromMe). -/
def ip6FromTun (ctx : Context) (message : IP6Message) : Context × Outcome :=
  if !validIP6 message then
    (ctx, Outcome.code Error_INVALID)
  else if message.ip6.sourceAddr ≠ ctx.myAddr.ip6 then
    (ctx, Outcome.code Error_INVALID)
  else
    let ctx := { ctx with
      ip6Header := some message.ip6
      switchHeader := some { label_be := 0, messageType := 0 } }
    (ctx, Outcome.toContentSessionSend
      { bytes := message.body, length := message.length - (Headers_IP6Header_SIZE : Int) })

/-- decryptedIncoming (lines 391-435): stash the IPv6 header, drop invalid
packets, hand packets for us to the content session (hop limit untouched),
drop with Error_UNDELIVERABLE on exhausted hop limit, otherwise decrement the
hop limit and forward: directly to forwardTo when set (router traffic),
otherwise to the DHT router oracle's best next hop, dropping with
Error_UNDELIVERABLE when the oracle knows none.  getBest is
RouterModule_getBest, returning the best known node's address. -/
def decryptedIncoming (getBest : Bytes → Option Address) (ctx : Context)
    (message : IP6Message) : Context × Outcome × List Effect :=
  let ctx := { ctx with ip6Header := some message.ip6 }
  if !validIP6 message then
    (ctx, Outcome.code Error_INVALID, [])
  else if isForMe message ctx then
    -- This call goes to incomingForMe() through the content session.
    (ctx, Outcome.toContentSessionRecv
      { bytes := message.body, length := message.length - (Headers_IP6Header_SIZE : Int) }, [])
  else if message.ip6.hopLimit == 0 then
    (ctx, Outcome.code Error_UNDELIVERABLE, [])
  else
    let ip6 := { message.ip6 with hopLimit := message.ip6.hopLimit - 1 }
    let message := { message with ip6 := ip6 }
    let ctx := { ctx with ip6Header := some ip6 }
    match ctx.forwardTo with
    | some forwardTo =>
      -- Router traffic, we know where it is to be sent to.
      let ctx := { ctx with forwardTo := none }
      let (ctx, frame) := sendToRouter forwardTo message ctx
      (ctx, Outcome.toOuterSession frame, [])
    | none =>
      match getBest message.ip6.destinationAddr with
      | some nextBest =>
        let (ctx, frame) := sendToRouter nextBest message ctx
        (ctx, Outcome.toOuterSession frame, [])
      | none => (ctx, Outcome.code Error_UNDELIVERABLE, [])

/-- The message reassembled by outgoingFromMe (lines 446-460): the stashed
IPv6 header with its payload length set to the crypto-aligned window length is
prepended, and when the result is addressed to ourselves (the content session
kicked back a handshake reply) the destination is overwritten with the source
and the source with our own address. -/
def outgoingFromMeMessage (ctx : Context) (message : RawMsg) : IP6Message :=
  let h := ctx.ip6Header.getD defaultIP6
  let h := { h with
    payloadLength_be := Endian_hostToBigEndian16 (message.length.emod 65536).toNat }
  let m1 : IP6Message :=
    { ip6 := h, body := message.bytes, length := message.length + (Headers_IP6Header_SIZE : Int) }
  if isForMe m1 ctx then
    { m1 with ip6 := { m1.ip6 with
        destinationAddr := m1.ip6.sourceAddr
        sourceAddr := ctx.myAddr.ip6 } }
  else m1

/-- outgoingFromMe (lines 442-465): update the stashed header's payload
length, reapply it (with the self-addressed swap of outgoingFromMeMessage) and
forward the call to decryptedIncoming. -/
def outgoingFromMe (getBest : Bytes → Option Address) (ctx : Context)
    (message : RawMsg) : Context × Outcome × List Effect :=
  let h := ctx.ip6Header.getD defaultIP6
  let ctx1 := { ctx with ip6Header := some { h with
    payloadLength_be := Endian_hostToBigEndian16 (message.length.emod 65536).toNat } }
  decryptedIncoming getBest ctx1 (outgoingFromMeMessage ctx message)

/-- handleOutgoing (lines 122-167): the DHT registry asks to emit dmessage to
its target.  Prepend a zero-ports zero-checksum UDP header carrying the
payload length, stash a fresh IPv6 header (UDP, hop limit 1 so the frame is
never forwarded, our address as source, the target as destination; the payload
length is set later, after the crypto, by outgoingFromMe), record the target
in forwardTo so the forwarding step bypasses the oracle, clear the stashed
switch header and hand the frame to the content session for encryption. -/
def handleOutgoing (ctx : Context) (dmessage : DHTMessage) : Context × Outcome :=
  let msgBytes := write32be 0 ++ write16be (dmessage.length % 65536) ++ write16be 0
    ++ dmessage.bytes
  let header : Headers_IP6Header :=
    { nextHeader := 17
      hopLimit := 1
      payloadLength_be := 0
      sourceAddr := ctx.myAddr.ip6
      destinationAddr := dmessage.address.ip6 }
  let ctx := { ctx with
    ip6Header := some header
    forwardTo := some dmessage.address
    switchHeader := none }
  (ctx, Outcome.toContentSessionSend
    { bytes := msgBytes, length := (dmessage.length : Int) + (Headers_UDPHeader_SIZE : Int) })

/-- receivedFromCryptoAuth (lines 467-495): a packet emerged from an outer
session.  Rebuild the peer address from the session's public key and the
stashed label; if the derived address is out of the fc00::/8 range the packet
is dropped (returning 0, i.e. Error_NONE) unless the key is zero, which trips
the assert; otherwise stash the message, announce the peer to the DHT router
when the packet is valid IPv6 (dropping with Error_INVALID when not) and
continue at decryptedIncoming. -/
def receivedFromCryptoAuth (derive : Bytes → Bytes) (getBest : Bytes → Option Address)
    (ctx : Context) (message : IP6Message) : RcaResult :=
  let sw := ctx.switchHeader.getD defaultSwitchHeader
  let address : Address :=
    { key := ctx.herPublicKey, ip6 := List.replicate 16 0, networkAddress_be := sw.label_be }
  let address := Address_getPrefix derive address
  if address.ip6.getD 0 0 ≠ 0xFC then
    if Bits_isZero address.key then RcaResult.assertFail
    else RcaResult.ok ctx (Outcome.code 0) []
  else
    let ctx := { ctx with messageFromCryptoAuth := some message }
    if validIP6 message then
      let (ctx, out, effects) := decryptedIncoming getBest ctx message
      RcaResult.ok ctx out (Effect.addNode address :: effects)
    else
      RcaResult.ok ctx (Outcome.code Error_INVALID) []

/-- incomingFromSwitch (lines 502-576): a frame arrives from the fabric.  The
label is bit-reversed in place to recover the peer's source label.  Control
frames never leave this function: an ERROR frame whose cause label differs
from the (reversed) frame label is dropped, a MALFORMED_ADDRESS error reports
the broken path to the DHT router, everything else is logged and swallowed.
Data frames stash the switch header and the session's peer key (herKey models
CryptoAuth_getHerPublicKey of the label's outer session) and are handed to the
outer session for decryption, which calls back into receivedFromCryptoAuth;
the function itself always returns 0. -/
def incomingFromSwitch (herKey : Bytes) (ctx : Context) (message : SwitchMsg) :
    Context × Outcome × List Effect :=
  let switchHeader := { message.header with
    label_be := Bits_bitReverse64 message.header.label_be }
  if Headers_getMessageType switchHeader == MessageType_CONTROL then
    let ctrl := message.ctrl
    if ctrl.type_be == Control_ERROR_be then
      if ctrl.causeLabel_be ≠ switchHeader.label_be then
        (ctx, Outcome.code 0, [])
      else if ctrl.errorType_be == Endian_bigEndianToHost16 Error_MALFORMED_ADDRESS then
        (ctx, Outcome.code 0, [Effect.brokenPath switchHeader.label_be])
      else
        (ctx, Outcome.code 0, [])
    else
      (ctx, Outcome.code 0, [])
  else
    let ctx := { ctx with switchHeader := some switchHeader, herPublicKey := herKey }
    (ctx, Outcome.code 0,
     [Effect.outerSessionReceive
        { bytes := message.body, length := message.length - (Headers_SwitchHeader_SIZE : Int) }])

/-- The effects list of a receivedFromCryptoAuth result. -/
def rcaEffects : RcaResult → List Effect
  | RcaResult.assertFail => []
  | RcaResult.ok _ _ effects => effects

/-- A DHT router oracle that knows no next hop. -/
def oracleNone : Bytes → Option Address := fun _ => none

/-- A sample 32 byte public key for the concrete instantiations below. -/
def sampleKey : Bytes := List.replicate 32 3

/-- A sample fc00::/8 address (byte string). -/
def sampleIp6 : Bytes := 0xFC :: List.replicate 15 0

/-- A second, distinct sample fc00::/8 address. -/
def sampleIp6B : Bytes := 0xFC :: 1 :: List.replicate 14 0

/-- A third, distinct sample fc00::/8 address. -/
def sampleIp6C : Bytes := 0xFC :: 2 :: List.replicate 14 0

/-- A sample peer address. -/
def sampleAddr : Address :=
  { key := sampleKey, ip6 := sampleIp6B, networkAddress_be := 77 }

/-- A sample context: our node owns sampleIp6, a TUN interface is configured,
and the per-packet slots hold values typical after an inbound data frame. -/
def ctx0 : Context :=
  { myAddr := { key := List.replicate 32 1, ip6 := sampleIp6, networkAddress_be := 5 }
    ip6Header := some
      { nextHeader := 17, hopLimit := 0, payloadLength_be := 28
        sourceAddr := sampleIp6B, destinationAddr := sampleIp6 }
    switchHeader := some { label_be := 9, messageType := 0 }
    forwardTo := none
    herPublicKey := List.replicate 32 2
    contentSessionKey := sampleKey
    messageFromCryptoAuth := none
    routerIf := true }

/-- A concrete valid IPv6 header, not addressed to us, with hop limit zero. -/
def w2ip6 : Headers_IP6Header :=
  { nextHeader := 59, hopLimit := 0, payloadLength_be := 0
    sourceAddr := sampleIp6B, destinationAddr := sampleIp6C }

/-- A concrete valid packet carrying w2ip6. -/
def w2msg : IP6Message := { ip6 := w2ip6, body := [], length := 40 }

/-- A concrete packet whose source address does not begin with 0xFC. -/
def w9msg : IP6Message :=
  { ip6 := { nextHeader := 59, hopLimit := 9, payloadLength_be := 0
             sourceAddr := List.replicate 16 1, destinationAddr := sampleIp6 }
    body := [], length := 40 }

/-- The IPv6 header ctx0 stashes: UDP, hop limit zero, peer source address. -/
def w3ip6 : Headers_IP6Header :=
  { nextHeader := 17, hopLimit := 0, payloadLength_be := 28
    sourceAddr := sampleIp6B, destinationAddr := sampleIp6 }

/-- A concrete router-to-router content window: zero UDP ports, length field
12, checksum 0, followed by 12 payload bytes. -/
def w3msg : RawMsg :=
  { bytes := [0, 0, 0, 0, 0, 12, 0, 0, 9, 9, 9, 9, 9, 9, 9, 9, 9, 9, 9, 9], length := 20 }

/-- A concrete outbound DHT message of 3 payload bytes for sampleAddr. -/
def w4dht : DHTMessage := { bytes := [1, 2, 3], length := 3, address := sampleAddr }

/-- A concrete data frame from the fabric with on-wire label 1. -/
def w6frame : SwitchMsg :=
  { header := { label_be := 1, messageType := 0 }
    body := [5, 6, 7]
    ctrl := { type_be := 0, errorType_be := 0, causeLabel_be := 0 }
    length := 15 }

/-- A concrete valid packet addressed to us from the peer at sampleIp6B. -/
def w6msg : IP6Message :=
  { ip6 := { nextHeader := 59, hopLimit := 3, payloadLength_be := 0
             sourceAddr := sampleIp6B, destinationAddr := sampleIp6 }
    body := [], length := 40 }

/-- The peer address built for the sender of w6frame: the session key, its
derived address, and the bit-reversed on-wire label 1. -/
def w6addr : Address :=
  { key := sampleKey, ip6 := sampleIp6, networkAddress_be := 9223372036854775808 }

/-- A concrete control ERROR frame of type MALFORMED_ADDRESS whose cause label
equals the frame's own on-wire label 1. -/
def w8frame : SwitchMsg :=
  { header := { label_be := 1, messageType := 1 }
    body := []
    ctrl := { type_be := 2, errorType_be := 1, causeLabel_be := 1 }
    length := 20 }

/-- The same control ERROR frame but with the cause label equal to the
bit-reversed frame label, as the code actually requires. -/
def w8frameB : SwitchMsg :=
  { header := { label_be := 1, messageType := 1 }
    body := []
    ctrl := { type_be := 2, errorType_be := 1, causeLabel_be := 9223372036854775808 }
    length := 20 }

/-- The combined 32 bit UDP ports field is zero exactly when the 16 bit source
port and the 16 bit destination port are both zero. -/
theorem read32be_eq_zero (b : Bytes) :
    read32be b 0 = 0 ↔ read16be b 0 = 0 ∧ read16be b 2 = 0 := by
  norm_num [read32be, read16be]
  omega

/-- C1: a packet arriving at incomingForMe through a content session whose
stashed IPv6 source address is not byte-for-byte the address derived from the
session's public key is dropped with Error_INVALID and produces no DHT
registry handoff and no TUN delivery. -/
theorem C1_source_address_binding (derive : Bytes → Bytes) (MAX sizeDiff : Nat)
    (ctx : Context) (message : RawMsg) (h : Headers_IP6Header)
    (hip : ctx.ip6Header = some h)
    (hne : derive ctx.contentSessionKey ≠ h.sourceAddr) :
    incomingForMe derive MAX sizeDiff ctx message = (Outcome.code Error_INVALID, []) := by
  simp [incomingForMe, hip, Address_getPrefix, hne]

/-- C1 witness: a concrete session whose derived address differs from the
packet's source address is dropped with Error_INVALID. -/
theorem C1_source_address_binding_witness :
    (fun _ => sampleIp6C : Bytes → Bytes) ctx0.contentSessionKey ≠ sampleIp6B ∧
    incomingForMe (fun _ => sampleIp6C) 1536 36 ctx0 { bytes := [1, 2, 3], length := 3 } =
      (Outcome.code Error_INVALID, []) := by
  constructor
  · decide
  · exact C1_source_address_binding (fun _ => sampleIp6C) 1536 36 ctx0
      { bytes := [1, 2, 3], length := 3 }
      { nextHeader := 17, hopLimit := 0, payloadLength_be := 28
        sourceAddr := sampleIp6B, destinationAddr := sampleIp6 }
      (by decide) (by decide)

/-- C10: incomingDHT delivers to the DHT registry exactly the first
min(message length, MAX_MESSAGE_SIZE) bytes of the decrypted payload and
reports Error_NONE: over-long messages are truncated, not rejected. -/
theorem C10_dht_truncation (MAX : Nat) (message : RawMsg) (addr : Address) (n : Nat)
    (hlen : message.length = (n : Int)) :
    incomingDHT MAX message addr =
      (Outcome.code Error_NONE, [Effect.dhtHandoff (message.bytes.take (min n MAX)) addr]) := by
  simp only [incomingDHT, hlen]
  by_cases hlt : (n : Int) < (MAX : Int)
  · rw [if_pos hlt]
    have : min n MAX = n := by omega
    simp [this]
  · rw [if_neg hlt]
    have : min n MAX = MAX := by omega
    simp [this]

/-- C10 witness: a 6 byte message against a MAX_MESSAGE_SIZE of 4 is truncated
to its first 4 bytes and still delivered with Error_NONE. -/
theorem C10_dht_truncation_witness :
    ({ bytes := [1, 2, 3, 4, 5, 6], length := 6 } : RawMsg).length = ((6 : Nat) : Int) ∧
    incomingDHT 4 { bytes := [1, 2, 3, 4, 5, 6], length := 6 } sampleAddr =
      (Outcome.code Error_NONE, [Effect.dhtHandoff [1, 2, 3, 4] sampleAddr]) := by
  refine ⟨by decide, ?_⟩
  have h := C10_dht_truncation 4 { bytes := [1, 2, 3, 4, 5, 6], length := 6 } sampleAddr 6
    (by decide)
  simpa using h

/-- C2: for a valid packet in decryptedIncoming that is not addressed to us,
an exhausted hop limit means Error_UNDELIVERABLE with no frame handed toward
the fabric, and every frame that is handed toward the fabric carries a hop
limit of exactly one less than the received one; a packet addressed to us is
handed to the content session with its hop limit neither checked nor
decremented. -/
theorem C2_hop_limit_monotonicity (getBest : Bytes → Option Address) (ctx : Context)
    (message : IP6Message) (hv : validIP6 message = true) :
    (isForMe message ctx = false → message.ip6.hopLimit = 0 →
      decryptedIncoming getBest ctx message =
        ({ ctx with ip6Header := some message.ip6 }, Outcome.code Error_UNDELIVERABLE, []))
    ∧ (∀ f : OuterFrame,
        (decryptedIncoming getBest ctx message).2.1 = Outcome.toOuterSession f →
        message.ip6.hopLimit ≠ 0 ∧
        f.contents.ip6.hopLimit = message.ip6.hopLimit - 1)
    ∧ (isForMe message ctx = true →
      decryptedIncoming getBest ctx message =
        ({ ctx with ip6Header := some message.ip6 },
         Outcome.toContentSessionRecv
           { bytes := message.body, length := message.length - (Headers_IP6Header_SIZE : Int) },
         []))
    ∧ (∀ (nb : Address) (sw : Headers_SwitchHeader),
        isForMe message ctx = false → message.ip6.hopLimit ≠ 0 →
        ctx.forwardTo = none → ctx.switchHeader = some sw →
        getBest message.ip6.destinationAddr = some nb →
        (decryptedIncoming getBest ctx message).2.1 =
          Outcome.toOuterSession
            { header := { sw with label_be := nb.networkAddress_be }
              key := nb.key
              contents := { message with
                ip6 := { message.ip6 with hopLimit := message.ip6.hopLimit - 1 } } }) := by
  refine ⟨?_, ?_, ?_, ?_⟩
  · intro hfm hz
    simp [decryptedIncoming, hv, isForMe] at hfm ⊢
    simp [hfm, hz]
  · intro f hf
    by_cases hfm : isForMe message ctx = true
    · simp [decryptedIncoming, hv, isForMe] at hfm hf
      simp [hfm] at hf
    · rw [Bool.not_eq_true] at hfm
      by_cases hz : message.ip6.hopLimit = 0
      · simp [decryptedIncoming, hv, isForMe] at hfm hf
        simp [hfm, hz] at hf
      · refine ⟨hz, ?_⟩
        simp [decryptedIncoming, hv, isForMe] at hfm hf
        simp [hfm, hz] at hf
        cases hft : ctx.forwardTo with
        | some t =>
          simp [hft, sendToRouter] at hf
          simp [← hf]
        | none =>
          cases hgb : getBest message.ip6.destinationAddr with
          | some nb =>
            simp [hft, hgb, sendToRouter] at hf
            simp [← hf]
          | none => simp [hft, hgb] at hf
  · intro hfm
    simp [decryptedIncoming, hv, isForMe] at hfm ⊢
    simp [hfm]
  · intro nb sw hfm hz hft hsw hgb
    simp [isForMe] at hfm
    simp [decryptedIncoming, hv, isForMe, hfm, hz, hft, hgb, sendToRouter, hsw]

/-- C2 witness: a concrete valid packet not addressed to us, arriving with hop
limit zero, is dropped as Error_UNDELIVERABLE. -/
theorem C2_hop_limit_monotonicity_witness :
    validIP6 w2msg = true ∧
    decryptedIncoming oracleNone ctx0 w2msg =
      ({ ctx0 with ip6Header := some w2ip6 }, Outcome.code Error_UNDELIVERABLE, []) := by
  refine ⟨by decide, ?_⟩
  exact (C2_hop_limit_monotonicity oracleNone ctx0 w2msg (by decide)).1 (by decide) (by decide)

/-- C9: validIP6 accepts exactly the packets whose source and destination
addresses begin with 0xFC and whose payload length field equals the window
length minus 40, and each of the three pipeline gates (decryptedIncoming,
ip6FromTun, receivedFromCryptoAuth past its key-range check) drops a packet
that violates it with Error_INVALID. -/
theorem C9_valid_ip6_gate (derive : Bytes → Bytes) (getBest : Bytes → Option Address)
    (ctx : Context) (message : IP6Message) :
    (validIP6 message = true ↔
      message.ip6.sourceAddr.getD 0 0 = 0xFC ∧
      message.ip6.destinationAddr.getD 0 0 = 0xFC ∧
      (Endian_bigEndianToHost16 message.ip6.payloadLength_be : Int) =
        message.length - (Headers_IP6Header_SIZE : Int))
    ∧ (validIP6 message = false →
        (decryptedIncoming getBest ctx message).2.1 = Outcome.code Error_INVALID)
    ∧ (validIP6 message = false →
        (ip6FromTun ctx message).2 = Outcome.code Error_INVALID)
    ∧ (validIP6 message = false → (derive ctx.herPublicKey).getD 0 0 = 0xFC →
        receivedFromCryptoAuth derive getBest ctx message =
          RcaResult.ok { ctx with messageFromCryptoAuth := some message }
            (Outcome.code Error_INVALID) []) := by
  refine ⟨?_, ?_, ?_, ?_⟩
  · simp [validIP6, and_assoc]
  · intro hnv
    simp [decryptedIncoming, hnv]
  · intro hnv
    simp [ip6FromTun, hnv]
  · intro hnv hfc
    simp only [List.getD_eq_getElem?_getD] at hfc
    simp [receivedFromCryptoAuth, Address_getPrefix, hfc, hnv]

/-- C9 witness: a concrete packet whose source address does not begin with
0xFC is rejected with Error_INVALID at all three gates. -/
theorem C9_valid_ip6_gate_witness :
    validIP6 w9msg = false ∧
    (decryptedIncoming oracleNone ctx0 w9msg).2.1 = Outcome.code Error_INVALID ∧
    (ip6FromTun ctx0 w9msg).2 = Outcome.code Error_INVALID := by
  refine ⟨by decide, ?_, ?_⟩
  · exact (C9_valid_ip6_gate (fun _ => sampleIp6) oracleNone ctx0 w9msg).2.1 (by decide)
  · exact (C9_valid_ip6_gate (fun _ => sampleIp6) oracleNone ctx0 w9msg).2.2.1 (by decide)

/-- C3: a packet after inner decryption is classified as router-to-router DHT
traffic exactly when the IPv6 header says UDP with hop limit zero, both UDP
ports are zero and the UDP length field equals the window length minus the UDP
header size; and every packet so classified whose source binding check passed
is handed to the DHT registry with the UDP header stripped, producing no
outbound fabric or TUN frame. -/
theorem C3_router_traffic_detector (derive : Bytes → Bytes) (MAX sizeDiff : Nat)
    (ctx : Context) (message : RawMsg) (h : Headers_IP6Header) (sw : Headers_SwitchHeader)
    (hip : ctx.ip6Header = some h) (hsw : ctx.switchHeader = some sw)
    (hbind : derive ctx.contentSessionKey = h.sourceAddr) :
    (isRouterTraffic message h = true ↔
      h.nextHeader = 17 ∧ h.hopLimit = 0 ∧
      read16be message.bytes 0 = 0 ∧ read16be message.bytes 2 = 0 ∧
      (Endian_bigEndianToHost16 (read16be message.bytes 4) : Int) =
        message.length - (Headers_UDPHeader_SIZE : Int))
    ∧ (isRouterTraffic message h = true →
      incomingForMe derive MAX sizeDiff ctx message =
        (Outcome.code Error_NONE,
         [Effect.dhtHandoff
            ((message.bytes.drop Headers_UDPHeader_SIZE).take
              (if message.length - (Headers_UDPHeader_SIZE : Int) < (MAX : Int)
               then message.length - (Headers_UDPHeader_SIZE : Int)
               else (MAX : Int)).toNat)
            { key := ctx.contentSessionKey, ip6 := h.sourceAddr
              networkAddress_be := sw.label_be }])) := by
  constructor
  · unfold isRouterTraffic udpHeaderOf
    by_cases h17 : h.nextHeader = 17
    · by_cases hhl : h.hopLimit = 0
      · simp [h17, hhl, Endian_bigEndianToHost16, read32be_eq_zero, and_assoc]
      · simp [hhl]
    · simp [h17]
  · intro hrt
    simp [incomingForMe, hip, hsw, Address_getPrefix, hbind, hrt, incomingDHT]

/-- C3 witness: a concrete zero-port hop-limit-zero UDP content window of 20
bytes with length field 12 is detected as router traffic and its 12 payload
bytes are handed to the DHT registry with no other effect. -/
theorem C3_router_traffic_detector_witness :
    isRouterTraffic w3msg w3ip6 = true ∧
    incomingForMe (fun _ => sampleIp6B) 1536 36 ctx0 w3msg =
      (Outcome.code Error_NONE,
       [Effect.dhtHandoff [9, 9, 9, 9, 9, 9, 9, 9, 9, 9, 9, 9]
          { key := sampleKey, ip6 := sampleIp6B, networkAddress_be := 9 }]) := by
  refine ⟨by decide, ?_⟩
  exact (C3_router_traffic_detector (fun _ => sampleIp6B) 1536 36 ctx0 w3msg w3ip6
    { label_be := 9, messageType := 0 } (by decide) (by decide) (by decide)).2 (by decide)

/-- C4: handleOutgoing synthesizes a frame whose UDP header has zero ports,
the payload length in its length field and a zero checksum, stashes an IPv6
header with nextHeader 17, hop limit 1, our address as source and the target
as destination, records the target in forwardTo, and a context so prepared
forwards independently of the DHT next-hop oracle, straight to the target. -/
theorem C4_dht_outbound_frame (ctx : Context) (d : DHTMessage) (hlen : d.length < 65536) :
    handleOutgoing ctx d =
      ({ ctx with
          ip6Header := some
            { nextHeader := 17, hopLimit := 1, payloadLength_be := 0
              sourceAddr := ctx.myAddr.ip6, destinationAddr := d.address.ip6 }
          forwardTo := some d.address
          switchHeader := none },
       Outcome.toContentSessionSend
         { bytes := write32be 0 ++ write16be (d.length % 65536) ++ write16be 0 ++ d.bytes
           length := (d.length : Int) + (Headers_UDPHeader_SIZE : Int) })
    ∧ udpHeaderOf (write32be 0 ++ write16be (d.length % 65536) ++ write16be 0 ++ d.bytes) =
        { sourceAndDestPorts := 0
          length_be := Endian_hostToBigEndian16 d.length
          checksum_be := 0 }
    ∧ (∀ (gb gb' : Bytes → Option Address) (m : IP6Message),
        decryptedIncoming gb (handleOutgoing ctx d).1 m =
          decryptedIncoming gb' (handleOutgoing ctx d).1 m)
    ∧ (∀ (gb : Bytes → Option Address) (m : IP6Message),
        validIP6 m = true → isForMe m (handleOutgoing ctx d).1 = false →
        m.ip6.hopLimit ≠ 0 →
        (decryptedIncoming gb (handleOutgoing ctx d).1 m).2.1 =
          Outcome.toOuterSession
            { header := { label_be := d.address.networkAddress_be, messageType := 0 }
              key := d.address.key
              contents := { m with ip6 := { m.ip6 with hopLimit := m.ip6.hopLimit - 1 } } }) := by
  refine ⟨rfl, ?_, ?_, ?_⟩
  · have hm : d.length % 65536 = d.length := Nat.mod_eq_of_lt hlen
    simp [udpHeaderOf, read32be, read16be, write32be, write16be,
      Endian_hostToBigEndian16, hm, List.getD]
    omega
  · intro gb gb' m
    simp [decryptedIncoming, handleOutgoing, sendToRouter]
  · intro gb m hv hfm hz
    simp [isForMe, handleOutgoing] at hfm
    simp [decryptedIncoming, handleOutgoing, sendToRouter, defaultSwitchHeader,
      hv, hz, isForMe, hfm]

/-- C4 witness: a concrete 3 byte DHT message for sampleAddr produces the
synthesized frame with the documented headers and records the target. -/
theorem C4_dht_outbound_frame_witness :
    (3 : Nat) < 65536 ∧
    handleOutgoing ctx0 w4dht =
      ({ ctx0 with
          ip6Header := some
            { nextHeader := 17, hopLimit := 1, payloadLength_be := 0
              sourceAddr := sampleIp6, destinationAddr := sampleIp6B }
          forwardTo := some sampleAddr
          switchHeader := none },
       Outcome.toContentSessionSend
         { bytes := [0, 0, 0, 0, 0, 3, 0, 0, 1, 2, 3], length := 11 }) := by
  refine ⟨by decide, ?_⟩
  exact (C4_dht_outbound_frame ctx0 w4dht (by decide)).1

/-- Helper: whenever receivedFromCryptoAuth announces a peer to the DHT
router, the announced address is built from the session key, its derived
address, and the stashed switch label. -/
theorem rca_addNode_shape (derive : Bytes → Bytes) (getBest : Bytes → Option Address)
    (ctx : Context) (m : IP6Message) (sw : Headers_SwitchHeader)
    (hs : ctx.switchHeader = some sw) (ctx2 : Context) (out : Outcome) (a : Address)
    (effects : List Effect)
    (hrc : receivedFromCryptoAuth derive getBest ctx m =
      RcaResult.ok ctx2 out (Effect.addNode a :: effects)) :
    a = { key := ctx.herPublicKey, ip6 := derive ctx.herPublicKey
          networkAddress_be := sw.label_be } := by
  simp only [receivedFromCryptoAuth, hs, Option.getD_some, Address_getPrefix] at hrc
  split at hrc
  · split at hrc
    · exact absurd hrc (by simp)
    · simp at hrc
  · split at hrc
    · rw [RcaResult.ok.injEq] at hrc
      obtain ⟨-, -, hl⟩ := hrc
      rw [List.cons.injEq] at hl
      obtain ⟨hhd, -⟩ := hl
      rw [Effect.addNode.injEq] at hhd
      exact hhd.symm
    · simp at hrc

/-- C5 (amended): a packet from an outer session whose peer key derives to an
address outside fc00::/8 is dropped: nothing is announced to the DHT router,
no further processing happens, and the returned outcome is 0 (Error_NONE),
not Error_INVALID. -/
theorem C5_out_of_range_key (derive : Bytes → Bytes) (getBest : Bytes → Option Address)
    (ctx : Context) (message : IP6Message)
    (hfc : (derive ctx.herPublicKey).getD 0 0 ≠ 0xFC)
    (hnz : Bits_isZero ctx.herPublicKey = false) :
    receivedFromCryptoAuth derive getBest ctx message =
      RcaResult.ok ctx (Outcome.code Error_NONE) [] := by
  simp only [List.getD_eq_getElem?_getD] at hfc
  simp [receivedFromCryptoAuth, Address_getPrefix, hfc, hnz, Error_NONE]

/-- C5 counterexample: for a concrete session whose key derives to an address
not starting with 0xFC, the packet is dropped but the returned outcome is
Error_NONE, which is not Error_INVALID as the claim states. -/
theorem C5_counterexample :
    ((fun _ => List.replicate 16 0 : Bytes → Bytes) ctx0.herPublicKey).getD 0 0 ≠ 0xFC ∧
    receivedFromCryptoAuth (fun _ => List.replicate 16 0) oracleNone ctx0 w2msg =
      RcaResult.ok ctx0 (Outcome.code Error_NONE) [] ∧
    Error_NONE ≠ Error_INVALID := by decide

/-- C5 witness: the amended statement at the same concrete input. -/
theorem C5_out_of_range_key_witness :
    Bits_isZero ctx0.herPublicKey = false ∧
    receivedFromCryptoAuth (fun _ => List.replicate 16 0) oracleNone ctx0 w2msg =
      RcaResult.ok ctx0 (Outcome.code Error_NONE) [] := by
  refine ⟨by decide, ?_⟩
  exact C5_out_of_range_key (fun _ => List.replicate 16 0) oracleNone ctx0 w2msg
    (by decide) (by decide)

/-- C6 (amended): for a data frame delivered with on-wire label L the core
stores Bits_bitReverse64 L as the peer's source label, the peer address it
announces carries that reversed label, and the switch header of a reply frame
handed back to the fabric for that peer carries Bits_bitReverse64 L (the
stored source label), not the on-wire label L itself. -/
theorem C6_label_bit_reverse (herKey : Bytes) (ctx : Context) (message : SwitchMsg)
    (hdata : Headers_getMessageType message.header ≠ MessageType_CONTROL) :
    ((incomingFromSwitch herKey ctx message).1.switchHeader =
      some { message.header with label_be := Bits_bitReverse64 message.header.label_be })
    ∧ (∀ (derive : Bytes → Bytes) (getBest : Bytes → Option Address) (m : IP6Message)
        (ctx2 : Context) (out : Outcome) (a : Address) (effects : List Effect),
        receivedFromCryptoAuth derive getBest (incomingFromSwitch herKey ctx message).1 m =
          RcaResult.ok ctx2 out (Effect.addNode a :: effects) →
        a.networkAddress_be = Bits_bitReverse64 message.header.label_be)
    ∧ (∀ (a : Address) (m : IP6Message) (ctx3 : Context),
        a.networkAddress_be = Bits_bitReverse64 message.header.label_be →
        (sendToRouter a m ctx3).2.header.label_be =
          Bits_bitReverse64 message.header.label_be) := by
  have hdata' : message.header.messageType ≠ MessageType_CONTROL := by
    simpa [Headers_getMessageType] using hdata
  have hsw : (incomingFromSwitch herKey ctx message).1.switchHeader =
      some { message.header with label_be := Bits_bitReverse64 message.header.label_be } := by
    simp [incomingFromSwitch, Headers_getMessageType, hdata']
  refine ⟨hsw, ?_, ?_⟩
  · intro derive getBest m ctx2 out a effects hrc
    have ha := rca_addNode_shape derive getBest _ m _ hsw ctx2 out a effects hrc
    rw [ha]
  · intro a m ctx3 ha
    cases h3 : ctx3.switchHeader <;> simp [sendToRouter, h3, ha]

/-- C6 counterexample: a data frame arrives with on-wire label 1; the peer is
announced with source label bitReverse64 1 = 2 to the power 63, and the reply
frame handed back to the fabric for that peer carries that reversed label,
which differs from the on-wire label 1 the claim requires. -/
theorem C6_counterexample :
    rcaEffects (receivedFromCryptoAuth (fun _ => sampleIp6) oracleNone
        (incomingFromSwitch sampleKey ctx0 w6frame).1 w6msg) = [Effect.addNode w6addr] ∧
    (sendToRouter w6addr w6msg (incomingFromSwitch sampleKey ctx0 w6frame).1).2.header.label_be =
      9223372036854775808 ∧
    (9223372036854775808 : Nat) ≠ 1 := by decide

/-- C6 witness: the amended statement at the concrete frame with label 1. -/
theorem C6_label_bit_reverse_witness :
    Headers_getMessageType w6frame.header ≠ MessageType_CONTROL ∧
    (incomingFromSwitch sampleKey ctx0 w6frame).1.switchHeader =
      some { label_be := 9223372036854775808, messageType := 0 } := by
  refine ⟨by decide, ?_⟩
  exact (C6_label_bit_reverse sampleKey ctx0 w6frame (by decide)).1

/-- C7: when the content session, asked to decrypt a packet for us, instead
emits a handshake reply addressed to ourselves, outgoingFromMe rewrites the
reapplied IPv6 header so the destination is the stashed header's source
address (the original sender) and the source is our own address, and then
re-enters decryptedIncoming with that message. -/
theorem C7_self_echo_swap (getBest : Bytes → Option Address) (ctx : Context)
    (message : RawMsg) (h : Headers_IP6Header)
    (hip : ctx.ip6Header = some h)
    (hdst : h.destinationAddr = ctx.myAddr.ip6) :
    (outgoingFromMeMessage ctx message).ip6.destinationAddr = h.sourceAddr ∧
    (outgoingFromMeMessage ctx message).ip6.sourceAddr = ctx.myAddr.ip6 ∧
    outgoingFromMe getBest ctx message =
      decryptedIncoming getBest
        { ctx with ip6Header := some { h with payloadLength_be := Endian_hostToBigEndian16 (message.length.emod 65536).toNat } }
        (outgoingFromMeMessage ctx message) := by
  refine ⟨?_, ?_, ?_⟩
  · simp [outgoingFromMeMessage, isForMe, hip, hdst]
  · simp [outgoingFromMeMessage, isForMe, hip, hdst]
  · simp [outgoingFromMe, hip]

/-- C7 witness: with ctx0's stashed header addressed to ourselves, the
reassembled reply has destination sampleIp6B (the original sender) and source
sampleIp6 (our own address). -/
theorem C7_self_echo_swap_witness :
    ctx0.ip6Header = some w3ip6 ∧ w3ip6.destinationAddr = ctx0.myAddr.ip6 ∧
    (outgoingFromMeMessage ctx0 { bytes := [1, 2], length := 2 }).ip6.destinationAddr =
      sampleIp6B ∧
    (outgoingFromMeMessage ctx0 { bytes := [1, 2], length := 2 }).ip6.sourceAddr =
      sampleIp6 := by
  refine ⟨by decide, by decide, ?_, ?_⟩
  · exact (C7_self_echo_swap oracleNone ctx0 { bytes := [1, 2], length := 2 } w3ip6
      (by decide) (by decide)).1
  · exact (C7_self_echo_swap oracleNone ctx0 { bytes := [1, 2], length := 2 } w3ip6
      (by decide) (by decide)).2.1

/-- C8 (amended): a control frame never produces an outbound frame and never
enters a cryptographic session (the context is untouched and the function
returns 0), and RouterModule_brokenPath is called exactly once, with the
bit-reversed frame label, exactly when the frame is a control ERROR whose
cause label equals the bit-reversed frame label (not the on-wire frame label
itself) and whose error type is MALFORMED_ADDRESS. -/
theorem C8_control_frames (herKey : Bytes) (ctx : Context) (message : SwitchMsg)
    (hctl : Headers_getMessageType message.header = MessageType_CONTROL) :
    incomingFromSwitch herKey ctx message =
      (ctx, Outcome.code 0,
       if message.ctrl.type_be = Control_ERROR_be ∧
          message.ctrl.causeLabel_be = Bits_bitReverse64 message.header.label_be ∧
          message.ctrl.errorType_be = Endian_bigEndianToHost16 Error_MALFORMED_ADDRESS
       then [Effect.brokenPath (Bits_bitReverse64 message.header.label_be)]
       else []) := by
  have hctl' : message.header.messageType = MessageType_CONTROL := by
    simpa [Headers_getMessageType] using hctl
  by_cases h1 : message.ctrl.type_be = Control_ERROR_be
  · by_cases h2 : message.ctrl.causeLabel_be = Bits_bitReverse64 message.header.label_be
    · by_cases h3 : message.ctrl.errorType_be = Endian_bigEndianToHost16 Error_MALFORMED_ADDRESS
      · simp [incomingFromSwitch, Headers_getMessageType, hctl', h1, h2, h3]
      · simp [incomingFromSwitch, Headers_getMessageType, hctl', h1, h2, h3]
    · simp [incomingFromSwitch, Headers_getMessageType, hctl', h1, h2]
  · simp [incomingFromSwitch, Headers_getMessageType, hctl', h1]

/-- C8 counterexample: a control ERROR frame of type MALFORMED_ADDRESS whose
cause label equals the frame's on-wire label is dropped without any call to
RouterModule_brokenPath, because the code compares the cause label against
the bit-reversed label. -/
theorem C8_counterexample :
    Headers_getMessageType w8frame.header = MessageType_CONTROL ∧
    w8frame.ctrl.type_be = Control_ERROR_be ∧
    w8frame.ctrl.errorType_be = Error_MALFORMED_ADDRESS ∧
    w8frame.ctrl.causeLabel_be = w8frame.header.label_be ∧
    incomingFromSwitch sampleKey ctx0 w8frame = (ctx0, Outcome.code 0, []) := by decide

/-- C8 witness: the same ERROR frame with its cause label equal to the
bit-reversed frame label reports the broken path exactly once. -/
theorem C8_control_frames_witness :
    Headers_getMessageType w8frameB.header = MessageType_CONTROL ∧
    incomingFromSwitch sampleKey ctx0 w8frameB =
      (ctx0, Outcome.code 0, [Effect.brokenPath 9223372036854775808]) := by
  refine ⟨by decide, ?_⟩
  exact (C8_control_frames sampleKey ctx0 w8frameB (by decide)).trans (by decide)

end Ducttape
